import Mathlib

/-!
Shallow embedding of the UDP transport session of `src/libav/libavformat/udp.c`
(the `ff_udp_protocol` URLProtocol: `udp_open`, `udp_read`, `udp_write`,
`udp_close`, `ff_udp_set_remote_url`, `ff_udp_get_local_port`).

OS socket calls (`socket`, `bind`, `setsockopt`, `connect`, `getaddrinfo`,
`getsockname`) are modelled by an oracle `OS` fixing each call's outcome, and
every call the code performs is recorded as an event in a trace, so that
properties such as "exactly one source-join call per listed source" are
statements about the emitted trace.
-/

namespace Udp

/-! ### Model of C `strtol(buf, &endptr, 10)` (libc, not part of the repo).

`parseIntPrefix` returns `none` exactly when strtol consumes no digits
(`endptr == buf` in the C), and otherwise the parsed signed decimal value:
optional whitespace, optional sign, then a maximal run of digits. -/

def digitsToNat (ds : List Char) : Nat :=
  ds.foldl (fun a c => a * 10 + (c.toNat - 48)) 0

def parseIntPrefix (s : String) : Option Int :=
  let cs := s.data.dropWhile (fun c => c == ' ' || c == '\t' || c == '\n' ||
    c == '\r' || c == '\x0b' || c == '\x0c')
  let signAndRest : Int × List Char :=
    match cs with
    | '-' :: rest => (-1, rest)
    | '+' :: rest => (1, rest)
    | _ => (1, cs)
  let ds := signAndRest.2.takeWhile Char.isDigit
  if ds.isEmpty then none
  else some (signAndRest.1 * (digitsToNat ds : Int))

/-- `strtol(buf, NULL, 10)`: 0 when no digits are consumed. -/
def strtolZ (s : String) : Int := (parseIntPrefix s).getD 0

/-- udp.c:408-412: `s->reuse_socket = strtol(buf, &endptr, 10);
if (buf == endptr) s->reuse_socket = 1;` — a value with no digits counts
as a request to enable reuse. -/
def reuseParse (v : String) : Int :=
  match parseIntPrefix v with
  | none => 1
  | some n => n

/-! ### Inputs: AVIO flags and the query options.

Modelled from the spec: `av_find_info_tag` and `av_url_split` (libavutil,
not under src/) deliver, for each recognized key present in the query
string, its raw value string (a bare key, `...&reuse&...`, yields the empty
string), and the URL's hostname and port. `UDPOptions` is that delivered
view: `none` = key absent, `some v` = key present with raw value `v`. -/

structure Flags where
  read : Bool
  write : Bool
  deriving DecidableEq, Repr

structure UDPOptions where
  reuse : Option String := none
  ttl : Option String := none
  localport : Option String := none
  pkt_size : Option String := none
  buffer_size : Option String := none
  connect : Option String := none
  localaddr : Option String := none
  sources : Option String := none
  block : Option String := none
  deriving DecidableEq, Repr

/-! ### The OS oracle and the event trace. -/

/-- Outcome of every OS call `udp_open`/`udp_close` may perform. `true` =
the call succeeds. `boundPort` is what `getsockname` + `getnameinfo`
(`udp_port`) report after bind. The two source functions give, per source
host string, whether `udp_resolve_host` finds it and whether the
source-specific `setsockopt` succeeds. -/
structure OS where
  resolveDestOk : Bool
  destIsMulticast : Bool
  socketOk : Bool
  setReuseOk : Bool
  bindDestOk : Bool
  bindLocalOk : Bool
  boundPort : Int
  setTTLOk : Bool
  joinOk : Bool
  sourceResolveOk : String → Bool
  sourceSetsockoptOk : String → Bool
  sndBufOk : Bool
  rcvBufOk : Bool
  connectOk : Bool

/-- One OS-level action performed by the code, with its outcome. -/
inductive Ev where
  | sockCreate (localPort : Int)
  | setReuse (ok : Bool)
  | bindDest (ok : Bool)
  | bindLocal (ok : Bool)
  | getSockName (port : Int)
  | setTTL (ok : Bool)
  | joinGroup (ok : Bool)
  | joinSourceGroup (src : String) (ok : Bool)
  | blockSource (src : String) (ok : Bool)
  | setSndBuf (ok : Bool)
  | setRcvBuf (ok : Bool)
  | setNonblock
  | connectOS (ok : Bool)
  | leaveGroup
  | closeSocket
  deriving DecidableEq, Repr

/-- Where `udp_open` bailed out. In the C every failure path reaches the
single `fail:` label and returns `AVERROR(EIO)`; the constructors record
which `goto fail` was taken. -/
inductive OpenErr where
  | invalidHost
  | resolveError
  | socketError
  | reuseError
  | bindError
  | ttlError
  | joinError
  | sourceResolveError
  | sourceCallError
  | invalidSourceFilter
  | sndBufError
  | connectError
  deriving DecidableEq, Repr

inductive RemoteErr where
  | resolveFailed
  | connectFailed
  deriving DecidableEq, Repr

/-! ### The UDPContext (udp.c:43-53). -/

/-- `UDPContext`. `dest_set` models `dest_addr`/`dest_addr_len` holding a
resolved address; the numeric fd value is abstracted (0 = live handle). -/
structure UDPCtx where
  ttl : Int := 0
  buffer_size : Int := 0
  is_multicast : Bool := false
  local_port : Int := 0
  reuse_socket : Int := 0
  is_connected : Int := 0
  dest_set : Bool := false
  udp_fd : Int := -1
  deriving DecidableEq, Repr

/-! ### Option parsing (udp.c:405-452). -/

/-- udp.c:436-450: the `strchr(source_start, ',')` loop copies successive
comma-separated fields of the option value (a char buffer) into
`sources[32]`, breaking once `num_sources >= FF_ARRAY_ELEMS(sources)`
(= 32) or the list ends; functionally the first 32 fields of the comma
split (an empty value yields the single field `""`). -/
def parseSources (v : String) : List String :=
  ((v.data.splitOn ',').map fun cs => String.mk cs).take 32

/-- udp.c:458: `hostname[0] == '\0' || hostname[0] == '?'` — the "no real
host given" test on the buffer `av_url_split` filled. -/
def hostnameBlank (h : String) : Bool :=
  match h.data with
  | [] => true
  | c :: _ => c == '?'

/-- What udp.c:405-452 computes from the query: the values assigned into
`s` and the locals `reuse_specified`, `include`, `sources`/`num_sources`.
`pktSize` is what is stored into `h->max_packet_size` (default 1472,
udp.c:398). -/
structure ParsedOpts where
  reuseVal : Int
  reuseSpecified : Bool
  ttl : Int
  localPort : Int
  pktSize : Int
  bufferSize : Int
  connectVal : Int
  localaddr : String
  includeMode : Bool
  srcs : List String
  deriving DecidableEq, Repr

def parseOpts (isOutput : Bool) (o : UDPOptions) : ParsedOpts :=
  { reuseVal := match o.reuse with
      | none => 0
      | some v => reuseParse v
    reuseSpecified := o.reuse.isSome
    ttl := match o.ttl with
      | none => 16
      | some v => strtolZ v
    localPort := match o.localport with
      | none => 0
      | some v => strtolZ v
    pktSize := match o.pkt_size with
      | none => 1472
      | some v => strtolZ v
    bufferSize := match o.buffer_size with
      | none => if isOutput then 32768 else 65536
      | some v => strtolZ v
    connectVal := match o.connect with
      | none => 0
      | some v => strtolZ v
    localaddr := o.localaddr.getD ""
    includeMode := o.sources.isSome
    -- udp.c:435: `if (include || av_find_info_tag(..., "block", p))` — when
    -- `sources` is present its value is split; `block` is consulted only
    -- otherwise (short-circuit, `buf` still holds the sources value).
    srcs := match o.sources with
      | some v => parseSources v
      | none =>
        match o.block with
        | some v => parseSources v
        | none => [] }

/-! ### ff_udp_set_remote_url (udp.c:325-357). -/

/-- udp.c:325-357: resolve the destination into `dest_addr`, recompute
`is_multicast`, then, if the uri carries a `connect` tag, set
`is_connected` from it and issue the OS `connect` only when newly
connected; on connect failure reset `is_connected` to 0 and fail. The
mutated context is returned alongside the status, as the C mutates
`h->priv_data` in place. -/
def ff_udp_set_remote_url (os : OS) (connectTag : Option String) (s : UDPCtx) :
    Except RemoteErr Unit × UDPCtx × List Ev :=
  if os.resolveDestOk then
    let s1 : UDPCtx := { s with dest_set := true, is_multicast := os.destIsMulticast }
    match connectTag with
    | none => (.ok (), s1, [])
    | some v =>
      let was := s1.is_connected
      let s2 : UDPCtx := { s1 with is_connected := strtolZ v }
      if s2.is_connected != 0 && was == 0 then
        if os.connectOk then (.ok (), s2, [.connectOS true])
        else (.error .connectFailed, { s2 with is_connected := 0 }, [.connectOS false])
      else (.ok (), s2, [])
  else (.error .resolveFailed, s, [])

def ff_udp_get_local_port (s : UDPCtx) : Int := s.local_port

/-! ### udp_open, phase by phase (udp.c:383-562). -/

/-- Result of one phase of `udp_open`: the context (or the error that sent
the C to `fail:`) and the OS calls the phase performed. -/
abbrev Step := Except OpenErr UDPCtx × List Ev

/-- Sequencing of phases: a failed phase short-circuits (goto fail); a
successful one passes the context on and the traces concatenate. -/
def seqStep (a : Step) (f : UDPCtx → Step) : Step :=
  match a with
  | (.error e, tr) => (.error e, tr)
  | (.ok s, tr) => ((f s).1, tr ++ (f s).2)

/-- udp.c:458-465: an empty (or `?`-leading) hostname is accepted only for
input; otherwise `ff_udp_set_remote_url` fills the destination. During
open the `connect` tag was already parsed into `is_connected`
(udp.c:427-429), so the re-parse inside set_remote_url never issues the OS
connect here (`was_connected` is already the parsed value). -/
def openRemotePhase (flags : Flags) (o : UDPOptions) (hostname : String) (os : OS)
    (s : UDPCtx) : Step :=
  if hostnameBlank hostname then
    if !flags.read then (.error .invalidHost, []) else (.ok s, [])
  else
    match ff_udp_set_remote_url os o.connect s with
    | (.ok _, s1, tr) => (.ok s1, tr)
    | (.error .resolveFailed, _, tr) => (.error .resolveError, tr)
    | (.error .connectFailed, _, tr) => (.error .connectError, tr)

/-- udp.c:467-471: for input, a multicast destination or an unset local
port makes the URL's destination port the local port; then
`udp_socket_create` resolves the local address (with that port) and
creates the socket. The emitted `sockCreate` event records the local port
handed to the resolver. -/
def openSocketPhase (flags : Flags) (port : Int) (os : OS) (s : UDPCtx) : Step :=
  let s1 := if (s.is_multicast || s.local_port == 0) && flags.read then
    { s with local_port := port }
  else s
  if os.socketOk then (.ok s1, [.sockCreate s1.local_port])
  else (.error .socketError, [.sockCreate s1.local_port])

/-- udp.c:473-480: `if (s->reuse_socket || (s->is_multicast &&
!reuse_specified))` set `reuse_socket = 1` and apply SO_REUSEADDR,
failing the open if the setsockopt fails. -/
def openReusePhase (po : ParsedOpts) (os : OS) (s : UDPCtx) : Step :=
  if s.reuse_socket != 0 || (s.is_multicast && !po.reuseSpecified) then
    let s1 : UDPCtx := { s with reuse_socket := 1 }
    if os.setReuseOk then (.ok s1, [.setReuse true])
    else (.error .reuseError, [.setReuse false])
  else (.ok s, [])

/-- udp.c:482-495: for a multicast destination not opened for writing,
first try binding the destination address itself; bind the locally
resolved address only if that was skipped or failed; a failed fallback
bind is fatal. -/
def openBindPhase (flags : Flags) (os : OS) (s : UDPCtx) : Step :=
  if s.is_multicast && !flags.write then
    if os.bindDestOk then (.ok s, [.bindDest true])
    else if os.bindLocalOk then (.ok s, [.bindDest false, .bindLocal true])
    else (.error .bindError, [.bindDest false, .bindLocal false])
  else if os.bindLocalOk then (.ok s, [.bindLocal true])
  else (.error .bindError, [.bindLocal false])

/-- udp.c:497-499: `getsockname` + `udp_port` overwrite `local_port` with
the port the socket is actually bound to. -/
def openPortPhase (os : OS) (s : UDPCtx) : Step :=
  (.ok { s with local_port := os.boundPort }, [.getSockName os.boundPort])

/-- udp.c:171-243, generic `group_source_req` variant (the IPv4-only
`ip_mreq_source` variant differs only in rejecting non-IPv4 families):
per source, resolve it (ENOENT if that fails, before any setsockopt) and
apply MCAST_JOIN_SOURCE_GROUP (`inc`) or MCAST_BLOCK_SOURCE (not `inc`),
stopping at the first failure. -/
def udp_set_multicast_sources (os : OS) (srcs : List String) (inc : Bool) :
    Except OpenErr Unit × List Ev :=
  match srcs with
  | [] => (.ok (), [])
  | src :: rest =>
    if os.sourceResolveOk src then
      if os.sourceSetsockoptOk src then
        let r := udp_set_multicast_sources os rest inc
        (r.1, (if inc then Ev.joinSourceGroup src true else Ev.blockSource src true) :: r.2)
      else
        (.error .sourceCallError,
         [if inc then Ev.joinSourceGroup src false else Ev.blockSource src false])
    else (.error .sourceResolveError, [])

/-- udp.c:507-523, the input side of the multicast block: `if (num_sources
== 0 || !include)` join the group plainly and, if sources were listed
(exclude mode), block each; `else if (include && num_sources)` perform the
source-specific joins only; the final `else` is the "invalid udp settings:
inclusive multicast but no sources given" failure. -/
def udp_mcast_input_setup (os : OS) (inc : Bool) (srcs : List String) :
    Except OpenErr Unit × List Ev :=
  if srcs.length == 0 || !inc then
    if os.joinOk then
      if srcs.length != 0 then
        let r := udp_set_multicast_sources os srcs false
        (r.1, Ev.joinGroup true :: r.2)
      else (.ok (), [.joinGroup true])
    else (.error .joinError, [.joinGroup false])
  else if inc && srcs.length != 0 then
    udp_set_multicast_sources os srcs true
  else (.error .invalidSourceFilter, [])

/-- udp.c:501-525: for multicast, output sessions set the TTL/hop limit
(fatal on failure) and input sessions run the membership setup. -/
def openMulticastPhase (flags : Flags) (po : ParsedOpts) (os : OS) (s : UDPCtx) : Step :=
  if s.is_multicast then
    let ttlStep : Except OpenErr Unit × List Ev :=
      if flags.write then
        if os.setTTLOk then (.ok (), [.setTTL true])
        else (.error .ttlError, [.setTTL false])
      else (.ok (), [])
    match ttlStep with
    | (.error e, tr) => (.error e, tr)
    | (.ok _, tr) =>
      if flags.read then
        let r := udp_mcast_input_setup os po.includeMode po.srcs
        match r.1 with
        | .ok _ => (.ok s, tr ++ r.2)
        | .error e => (.error e, tr ++ r.2)
      else (.ok s, tr)
  else (.ok s, [])

/-- udp.c:527-543: output sets SO_SNDBUF and fails the open if that
setsockopt fails; input sets SO_RCVBUF, logging only a warning on
failure, and puts the socket in non-blocking mode. -/
def openBufferPhase (flags : Flags) (os : OS) (s : UDPCtx) : Step :=
  if !flags.read then
    if os.sndBufOk then (.ok s, [.setSndBuf true])
    else (.error .sndBufError, [.setSndBuf false])
  else (.ok s, [.setRcvBuf os.rcvBufOk, .setNonblock])

/-- udp.c:544-549: if `connect=` asked for a connected socket, issue the
OS connect; failure is fatal to the open. -/
def openConnectPhase (os : OS) (s : UDPCtx) : Step :=
  if s.is_connected != 0 then
    if os.connectOk then (.ok s, [.connectOS true])
    else (.error .connectError, [.connectOS false])
  else (.ok s, [])

/-- udp.c:554: `s->udp_fd = udp_fd` — the context now owns the live
handle (abstracted as 0). -/
def openFinishPhase (s : UDPCtx) : Step :=
  (.ok { s with udp_fd := 0 }, [])

/-- udp.c:383-562 `udp_open`, over the option view `opts` and the
hostname/port that `av_url_split` extracts from the uri. The `fail:`
label runs `if (udp_fd >= 0) closesocket(udp_fd)` (udp.c:557-558): a
failure after `udp_socket_create` succeeded reaches it with a live fd,
so those error paths release the socket, recorded as a final
`closeSocket` event; failures before or inside `udp_socket_create`
leave `udp_fd < 0` (its own fail path never holds a live fd) and close
nothing. Freeing of the `sources` strings is the only cleanup with no
observable effect in this model. -/
def udp_open (flags : Flags) (opts : UDPOptions) (hostname : String) (port : Int)
    (os : OS) : Except OpenErr UDPCtx × List Ev :=
  let po := parseOpts (!flags.read) opts
  let s0 : UDPCtx := { ttl := po.ttl, buffer_size := po.bufferSize,
                       local_port := po.localPort, reuse_socket := po.reuseVal,
                       is_connected := po.connectVal }
  match seqStep (openRemotePhase flags opts hostname os s0) (fun s =>
        openSocketPhase flags port os s) with
  | (.error e, tr) => (.error e, tr)
  | (.ok s, tr) =>
    match seqStep (openReusePhase po os s) (fun s =>
          seqStep (openBindPhase flags os s) (fun s =>
          seqStep (openPortPhase os s) (fun s =>
          seqStep (openMulticastPhase flags po os s) (fun s =>
          seqStep (openBufferPhase flags os s) (fun s =>
          seqStep (openConnectPhase os s) (fun s =>
          openFinishPhase s)))))) with
    | (.error e, tr2) => (.error e, tr ++ (tr2 ++ [Ev.closeSocket]))
    | (.ok s2, tr2) => (.ok s2, tr ++ tr2)

/-- udp.c:599-607 `udp_close`: an input multicast session leaves the
group first, then the socket handle is released. -/
def udp_close (flags : Flags) (s : UDPCtx) : List Ev :=
  (if s.is_multicast && flags.read then [Ev.leaveGroup] else []) ++ [Ev.closeSocket]

/-! ### Trace observations. -/

def Ev.isMembership : Ev → Bool
  | .joinGroup _ => true
  | .joinSourceGroup _ _ => true
  | .blockSource _ _ => true
  | .leaveGroup => true
  | _ => false

/-- The group-membership calls of a trace, in order. -/
def memEvs (t : List Ev) : List Ev := t.filter Ev.isMembership

def Ev.isBind : Ev → Bool
  | .bindDest _ => true
  | .bindLocal _ => true
  | _ => false

/-- The bind calls of a trace, in order. -/
def bindEvs (t : List Ev) : List Ev := t.filter Ev.isBind

def Ev.isReuse : Ev → Bool
  | .setReuse _ => true
  | _ => false

def Ev.isConnect : Ev → Bool
  | .connectOS _ => true
  | _ => false

def countJoins (t : List Ev) : Nat :=
  t.countP fun e => match e with
    | .joinGroup _ => true
    | _ => false

def countLeaves (t : List Ev) : Nat :=
  t.countP fun e => match e with
    | .leaveGroup => true
    | _ => false

/-- An oracle on which every OS call succeeds and the bound port is
reported as 5004, used to instantiate universally quantified statements
at concrete sessions. -/
def osAllOk : OS :=
  { resolveDestOk := true
    destIsMulticast := true
    socketOk := true
    setReuseOk := true
    bindDestOk := true
    bindLocalOk := true
    boundPort := 5004
    setTTLOk := true
    joinOk := true
    sourceResolveOk := fun _ => true
    sourceSetsockoptOk := fun _ => true
    sndBufOk := true
    rcvBufOk := true
    connectOk := true }

/-! ### Helper lemmas about the phase combinator and the source loop. -/

theorem seqStep_ok (s : UDPCtx) (tr : List Ev) (f : UDPCtx → Step) :
    seqStep (.ok s, tr) f = ((f s).1, tr ++ (f s).2) := rfl

theorem seqStep_err (e : OpenErr) (tr : List Ev) (f : UDPCtx → Step) :
    seqStep (.error e, tr) f = (.error e, tr) := rfl

theorem int_bne_beq_zero (a : Int) : (a != 0 && a == 0) = false := by
  cases h : a == 0 <;> simp [bne, h]

/-- The comma-split loop always stores at least one entry — even an empty
option value yields the single source `""`. -/
theorem parseSources_ne_nil (v : String) : parseSources v ≠ [] := by
  have h : v.data.splitOn ',' ≠ [] := List.splitOnP_ne_nil _ v.data
  unfold parseSources
  intro hc
  rcases List.take_eq_nil_iff.1 hc with h32 | hnil
  · exact absurd h32 (by decide)
  · exact h (by simpa using hnil)

/-- When every listed source resolves and every source-specific setsockopt
succeeds, the source loop performs exactly one call per source, in list
order, and succeeds. -/
theorem udp_set_multicast_sources_all_ok (os : OS) (inc : Bool) (srcs : List String)
    (hres : ∀ x ∈ srcs, os.sourceResolveOk x = true)
    (hcall : ∀ x ∈ srcs, os.sourceSetsockoptOk x = true) :
    udp_set_multicast_sources os srcs inc =
      (.ok (), srcs.map fun x =>
        if inc then Ev.joinSourceGroup x true else Ev.blockSource x true) := by
  induction srcs with
  | nil => rfl
  | cons a l ih =>
    have ha := hres a (List.mem_cons_self a l)
    have hb := hcall a (List.mem_cons_self a l)
    have ihh := ih (fun x hx => hres x (List.mem_cons_of_mem a hx))
      (fun x hx => hcall x (List.mem_cons_of_mem a hx))
    simp [udp_set_multicast_sources, ha, hb, ihh]

/-- Every event the source loop emits is a group-membership call. -/
theorem udp_set_multicast_sources_mem (os : OS) (inc : Bool) (srcs : List String) :
    ∀ e ∈ (udp_set_multicast_sources os srcs inc).2, e.isMembership = true := by
  induction srcs with
  | nil => intro e he; simp [udp_set_multicast_sources] at he
  | cons a l ih =>
    intro e he
    by_cases h1 : os.sourceResolveOk a = true
    · by_cases h2 : os.sourceSetsockoptOk a = true
      · simp only [udp_set_multicast_sources, h1, h2, if_true, List.mem_cons] at he
        rcases he with he | he
        · subst he; cases inc <;> simp [Ev.isMembership]
        · exact ih e he
      · simp [udp_set_multicast_sources, h1, h2] at he
        subst he; cases inc <;> simp [Ev.isMembership]
    · simp [udp_set_multicast_sources, h1] at he

/-- Every event the multicast input membership setup emits is a
group-membership call. -/
theorem udp_mcast_input_setup_mem (os : OS) (inc : Bool) (srcs : List String) :
    ∀ e ∈ (udp_mcast_input_setup os inc srcs).2, e.isMembership = true := by
  intro e he
  unfold udp_mcast_input_setup at he
  split at he
  · split at he
    · split at he
      · rcases List.mem_cons.1 he with h | h
        · subst h; rfl
        · exact udp_set_multicast_sources_mem os false srcs e h
      · simp at he; subst he; rfl
    · simp at he; subst he; rfl
  · split at he
    · exact udp_set_multicast_sources_mem os true srcs e he
    · simp at he

/-- The source loop never reports the `invalidSourceFilter` configuration
error. -/
theorem udp_set_multicast_sources_ne_invalid (os : OS) (inc : Bool) (srcs : List String) :
    (udp_set_multicast_sources os srcs inc).1 ≠ .error .invalidSourceFilter := by
  induction srcs with
  | nil => simp [udp_set_multicast_sources]
  | cons a l ih =>
    by_cases h1 : os.sourceResolveOk a = true
    · by_cases h2 : os.sourceSetsockoptOk a = true
      · simpa [udp_set_multicast_sources, h1, h2] using ih
      · simp [udp_set_multicast_sources, h1, eq_false_of_ne_true h2]
    · simp [udp_set_multicast_sources, eq_false_of_ne_true h1]

/-- With a working plain join, working source resolution and working
source-specific setsockopts, the multicast input membership setup succeeds
whenever the include mode comes with at least one source, and its trace is
the plain join followed by the per-source block calls (exclude or no
filter) or exactly the per-source join calls (include). -/
theorem udp_mcast_input_setup_ok (os : OS) (inc : Bool) (srcs : List String)
    (hjoin : os.joinOk = true)
    (hres : ∀ x ∈ srcs, os.sourceResolveOk x = true)
    (hcall : ∀ x ∈ srcs, os.sourceSetsockoptOk x = true)
    (hne : inc = true → srcs ≠ []) :
    udp_mcast_input_setup os inc srcs =
      (.ok (),
       if inc then srcs.map fun x => Ev.joinSourceGroup x true
       else if srcs.isEmpty then [Ev.joinGroup true]
       else Ev.joinGroup true :: (srcs.map fun x => Ev.blockSource x true)) := by
  have hsm := udp_set_multicast_sources_all_ok os inc srcs hres hcall
  cases inc with
  | false =>
    cases srcs with
    | nil => simp [udp_mcast_input_setup, hjoin]
    | cons a l =>
      have hsm' := udp_set_multicast_sources_all_ok os false (a :: l)
        (by simpa using hres) (by simpa using hcall)
      simp [udp_mcast_input_setup, hjoin, hsm']
  | true =>
    have hnil := hne rfl
    have hlen : ((srcs.length == 0) : Bool) = false := by
      simp [List.length_eq_zero, hnil]
    simp [udp_mcast_input_setup, hlen, hsm, List.length_eq_zero, hnil]

/-! ### Characterization of successful opens. -/

/-- Complete characterization of `udp_open` for a read-access multicast
destination when the resolver, socket creation, setsockopts, the fallback
bind and — via `hms` — the membership setup all succeed. -/
theorem udp_open_read_mcast (flags : Flags) (opts : UDPOptions) (hostname : String)
    (port : Int) (os : OS) (inc : Bool) (srcs : List String) (mtr : List Ev)
    (hread : flags.read = true)
    (hhost : hostnameBlank hostname = false)
    (hres : os.resolveDestOk = true)
    (hmc : os.destIsMulticast = true)
    (hsock : os.socketOk = true)
    (hreuse : os.setReuseOk = true)
    (hbl : os.bindLocalOk = true)
    (httl : os.setTTLOk = true)
    (hco : os.connectOk = true)
    (hinc : (parseOpts (!flags.read) opts).includeMode = inc)
    (hsrcs : (parseOpts (!flags.read) opts).srcs = srcs)
    (hms : udp_mcast_input_setup os inc srcs = (.ok (), mtr)) :
    udp_open flags opts hostname port os =
      (.ok { ttl := (parseOpts (!flags.read) opts).ttl
             buffer_size := (parseOpts (!flags.read) opts).bufferSize
             is_multicast := true
             local_port := os.boundPort
             reuse_socket :=
               if ((parseOpts (!flags.read) opts).reuseVal != 0 ||
                   !(parseOpts (!flags.read) opts).reuseSpecified) = true then 1
               else (parseOpts (!flags.read) opts).reuseVal
             is_connected := (parseOpts (!flags.read) opts).connectVal
             dest_set := true
             udp_fd := 0 },
       [Ev.sockCreate port]
         ++ (if ((parseOpts (!flags.read) opts).reuseVal != 0 ||
                 !(parseOpts (!flags.read) opts).reuseSpecified) = true
             then [Ev.setReuse true] else [])
         ++ (if flags.write then [Ev.bindLocal true]
             else if os.bindDestOk then [Ev.bindDest true]
             else [Ev.bindDest false, Ev.bindLocal true])
         ++ [Ev.getSockName os.boundPort]
         ++ (if flags.write then [Ev.setTTL true] else [])
         ++ mtr
         ++ [Ev.setRcvBuf os.rcvBufOk, Ev.setNonblock]
         ++ (if (parseOpts (!flags.read) opts).connectVal == 0 then []
             else [Ev.connectOS true])) := by
  simp only [parseOpts, hread, Bool.not_true] at hinc hsrcs
  rcases hc : opts.connect with _ | cv
  · rcases hr : opts.reuse with _ | rv
    · cases hw : flags.write <;> cases hbd : os.bindDestOk <;>
      simp [udp_open, openRemotePhase, openSocketPhase, openReusePhase,
        openBindPhase, openPortPhase, openMulticastPhase, openBufferPhase,
        openConnectPhase, openFinishPhase, parseOpts,
        ff_udp_set_remote_url, seqStep, int_bne_beq_zero,
        hread, hhost, hres, hmc, hsock, hreuse, hbl, httl, hco,
        hc, hr, hw, hbd, hinc, hsrcs, hms]
    · by_cases hrv : reuseParse rv = 0 <;> cases hw : flags.write <;>
      cases hbd : os.bindDestOk <;>
      simp [udp_open, openRemotePhase, openSocketPhase, openReusePhase,
        openBindPhase, openPortPhase, openMulticastPhase, openBufferPhase,
        openConnectPhase, openFinishPhase, parseOpts,
        ff_udp_set_remote_url, seqStep, int_bne_beq_zero,
        hread, hhost, hres, hmc, hsock, hreuse, hbl, httl, hco,
        hc, hr, hw, hbd, hrv, hinc, hsrcs, hms]
  · by_cases hic : strtolZ cv = 0 <;>
    rcases hr : opts.reuse with _ | rv
    case pos.none | neg.none =>
      cases hw : flags.write <;> cases hbd : os.bindDestOk <;>
      simp [udp_open, openRemotePhase, openSocketPhase, openReusePhase,
        openBindPhase, openPortPhase, openMulticastPhase, openBufferPhase,
        openConnectPhase, openFinishPhase, parseOpts,
        ff_udp_set_remote_url, seqStep, int_bne_beq_zero,
        hread, hhost, hres, hmc, hsock, hreuse, hbl, httl, hco,
        hc, hr, hw, hbd, hic, hinc, hsrcs, hms]
    case pos.some | neg.some =>
      by_cases hrv : reuseParse rv = 0 <;> cases hw : flags.write <;>
      cases hbd : os.bindDestOk <;>
      simp [udp_open, openRemotePhase, openSocketPhase, openReusePhase,
        openBindPhase, openPortPhase, openMulticastPhase, openBufferPhase,
        openConnectPhase, openFinishPhase, parseOpts,
        ff_udp_set_remote_url, seqStep, int_bne_beq_zero,
        hread, hhost, hres, hmc, hsock, hreuse, hbl, httl, hco,
        hc, hr, hw, hbd, hic, hrv, hinc, hsrcs, hms]

/-- Complete characterization of `udp_open` for a resolved non-multicast
destination when every OS call succeeds. -/
theorem udp_open_nonmcast (flags : Flags) (opts : UDPOptions) (hostname : String)
    (port : Int) (os : OS)
    (hhost : hostnameBlank hostname = false)
    (hres : os.resolveDestOk = true)
    (hmc : os.destIsMulticast = false)
    (hsock : os.socketOk = true)
    (hreuse : os.setReuseOk = true)
    (hbl : os.bindLocalOk = true)
    (hsnd : os.sndBufOk = true)
    (hco : os.connectOk = true) :
    udp_open flags opts hostname port os =
      (.ok { ttl := (parseOpts (!flags.read) opts).ttl
             buffer_size := (parseOpts (!flags.read) opts).bufferSize
             is_multicast := false
             local_port := os.boundPort
             reuse_socket :=
               if ((parseOpts (!flags.read) opts).reuseVal != 0) = true then 1
               else (parseOpts (!flags.read) opts).reuseVal
             is_connected := (parseOpts (!flags.read) opts).connectVal
             dest_set := true
             udp_fd := 0 },
       [Ev.sockCreate
          (if ((parseOpts (!flags.read) opts).localPort == 0 && flags.read) = true
           then port else (parseOpts (!flags.read) opts).localPort)]
         ++ (if ((parseOpts (!flags.read) opts).reuseVal != 0) = true
             then [Ev.setReuse true] else [])
         ++ [Ev.bindLocal true]
         ++ [Ev.getSockName os.boundPort]
         ++ (if flags.read then [Ev.setRcvBuf os.rcvBufOk, Ev.setNonblock]
             else [Ev.setSndBuf true])
         ++ (if (parseOpts (!flags.read) opts).connectVal == 0 then []
             else [Ev.connectOS true])) := by
  rcases hc : opts.connect with _ | cv
  · rcases hr : opts.reuse with _ | rv
    · cases hfr : flags.read <;>
      simp [udp_open, openRemotePhase, openSocketPhase, openReusePhase,
        openBindPhase, openPortPhase, openMulticastPhase, openBufferPhase,
        openConnectPhase, openFinishPhase, parseOpts,
        ff_udp_set_remote_url, seqStep, int_bne_beq_zero,
        apply_ite UDPCtx.ttl, apply_ite UDPCtx.buffer_size,
        apply_ite UDPCtx.is_multicast, apply_ite UDPCtx.local_port,
        apply_ite UDPCtx.reuse_socket, apply_ite UDPCtx.is_connected,
        apply_ite UDPCtx.dest_set, apply_ite UDPCtx.udp_fd, ite_self,
        hhost, hres, hmc, hsock, hreuse, hbl, hsnd, hco, hc, hr, hfr]
    · by_cases hrv : reuseParse rv = 0 <;> cases hfr : flags.read <;>
      simp [udp_open, openRemotePhase, openSocketPhase, openReusePhase,
        openBindPhase, openPortPhase, openMulticastPhase, openBufferPhase,
        openConnectPhase, openFinishPhase, parseOpts,
        ff_udp_set_remote_url, seqStep, int_bne_beq_zero,
        apply_ite UDPCtx.ttl, apply_ite UDPCtx.buffer_size,
        apply_ite UDPCtx.is_multicast, apply_ite UDPCtx.local_port,
        apply_ite UDPCtx.reuse_socket, apply_ite UDPCtx.is_connected,
        apply_ite UDPCtx.dest_set, apply_ite UDPCtx.udp_fd, ite_self,
        hhost, hres, hmc, hsock, hreuse, hbl, hsnd, hco, hc, hr, hrv, hfr]
  · by_cases hic : strtolZ cv = 0 <;>
    rcases hr : opts.reuse with _ | rv
    case pos.none | neg.none =>
      cases hfr : flags.read <;>
      simp [udp_open, openRemotePhase, openSocketPhase, openReusePhase,
        openBindPhase, openPortPhase, openMulticastPhase, openBufferPhase,
        openConnectPhase, openFinishPhase, parseOpts,
        ff_udp_set_remote_url, seqStep, int_bne_beq_zero,
        apply_ite UDPCtx.ttl, apply_ite UDPCtx.buffer_size,
        apply_ite UDPCtx.is_multicast, apply_ite UDPCtx.local_port,
        apply_ite UDPCtx.reuse_socket, apply_ite UDPCtx.is_connected,
        apply_ite UDPCtx.dest_set, apply_ite UDPCtx.udp_fd, ite_self,
        hhost, hres, hmc, hsock, hreuse, hbl, hsnd, hco, hc, hr, hic, hfr]
    case pos.some | neg.some =>
      by_cases hrv : reuseParse rv = 0 <;> cases hfr : flags.read <;>
      simp [udp_open, openRemotePhase, openSocketPhase, openReusePhase,
        openBindPhase, openPortPhase, openMulticastPhase, openBufferPhase,
        openConnectPhase, openFinishPhase, parseOpts,
        ff_udp_set_remote_url, seqStep, int_bne_beq_zero,
        apply_ite UDPCtx.ttl, apply_ite UDPCtx.buffer_size,
        apply_ite UDPCtx.is_multicast, apply_ite UDPCtx.local_port,
        apply_ite UDPCtx.reuse_socket, apply_ite UDPCtx.is_connected,
        apply_ite UDPCtx.dest_set, apply_ite UDPCtx.udp_fd, ite_self,
        hhost, hres, hmc, hsock, hreuse, hbl, hsnd, hco, hc, hr, hic, hrv, hfr]

end Udp

namespace Udp

theorem memEvs_append (a b : List Ev) : memEvs (a ++ b) = memEvs a ++ memEvs b := by
  simp [memEvs]

theorem memEvs_join_map (l : List String) (b : Bool) :
    memEvs (l.map fun x => Ev.joinSourceGroup x b) =
      l.map fun x => Ev.joinSourceGroup x b :=
  List.filter_eq_self.mpr (by
    intro e he
    rcases List.mem_map.1 he with ⟨x, _, rfl⟩
    rfl)

theorem memEvs_block_map (l : List String) (b : Bool) :
    memEvs (l.map fun x => Ev.blockSource x b) =
      l.map fun x => Ev.blockSource x b :=
  List.filter_eq_self.mpr (by
    intro e he
    rcases List.mem_map.1 he with ⟨x, _, rfl⟩
    rfl)

theorem parsed_srcs_ne_nil (flags : Flags) (opts : UDPOptions) :
    (parseOpts (!flags.read) opts).includeMode = true →
    (parseOpts (!flags.read) opts).srcs ≠ [] := by
  rcases h : opts.sources with _ | v <;>
  simp [parseOpts, h, parseSources_ne_nil]

theorem countJoins_memEvs (t : List Ev) : countJoins (memEvs t) = countJoins t := by
  induction t with
  | nil => rfl
  | cons e t ih =>
    cases e <;>
    simp [memEvs, countJoins, List.filter_cons, List.countP_cons,
      Ev.isMembership] at ih ⊢ <;>
    omega

theorem countLeaves_memEvs (t : List Ev) : countLeaves (memEvs t) = countLeaves t := by
  induction t with
  | nil => rfl
  | cons e t ih =>
    cases e <;>
    simp [memEvs, countLeaves, List.filter_cons, List.countP_cons,
      Ev.isMembership] at ih ⊢ <;>
    omega

end Udp

namespace Udp

/-- C1: for a multicast read session whose URL carries `sources=` the open
performs exactly one source-join per listed source and no plain join;
with `block=` (and no `sources=`) it performs the plain join first and
then one block call per listed source. -/
theorem c1_source_filter_calls (flags : Flags) (opts : UDPOptions) (hostname : String)
    (port : Int) (os : OS)
    (hread : flags.read = true)
    (hhost : hostnameBlank hostname = false)
    (hres : os.resolveDestOk = true)
    (hmc : os.destIsMulticast = true)
    (hsock : os.socketOk = true)
    (hreuse : os.setReuseOk = true)
    (hbl : os.bindLocalOk = true)
    (httl : os.setTTLOk = true)
    (hjoin : os.joinOk = true)
    (hco : os.connectOk = true)
    (hsres : ∀ x, os.sourceResolveOk x = true)
    (hscall : ∀ x, os.sourceSetsockoptOk x = true) :
    (∀ v, opts.sources = some v →
        (∃ s, (udp_open flags opts hostname port os).1 = .ok s) ∧
        memEvs (udp_open flags opts hostname port os).2 =
          (parseSources v).map fun x => Ev.joinSourceGroup x true) ∧
    (∀ v, opts.sources = none → opts.block = some v →
        (∃ s, (udp_open flags opts hostname port os).1 = .ok s) ∧
        memEvs (udp_open flags opts hostname port os).2 =
          Ev.joinGroup true :: ((parseSources v).map fun x => Ev.blockSource x true)) := by
  constructor
  · intro v hv
    have hinc : (parseOpts (!flags.read) opts).includeMode = true := by
      simp [parseOpts, hv]
    have hsrcs : (parseOpts (!flags.read) opts).srcs = parseSources v := by
      simp [parseOpts, hv]
    have hms := udp_mcast_input_setup_ok os true (parseSources v) hjoin
      (fun x _ => hsres x) (fun x _ => hscall x) (fun _ => parseSources_ne_nil v)
    simp only [if_true, ite_true] at hms
    rw [udp_open_read_mcast flags opts hostname port os true (parseSources v) _
      hread hhost hres hmc hsock hreuse hbl httl hco hinc hsrcs hms]
    refine ⟨⟨_, rfl⟩, ?_⟩
    simp [memEvs_append, memEvs, Ev.isMembership,
      apply_ite (List.filter Ev.isMembership), memEvs_join_map, ite_self]
  · intro v hv hb
    have hinc : (parseOpts (!flags.read) opts).includeMode = false := by
      simp [parseOpts, hv]
    have hsrcs : (parseOpts (!flags.read) opts).srcs = parseSources v := by
      simp [parseOpts, hv, hb]
    have hms := udp_mcast_input_setup_ok os false (parseSources v) hjoin
      (fun x _ => hsres x) (fun x _ => hscall x) (by intro h; exact absurd h (by decide))
    have hie : (parseSources v).isEmpty = false := by
      simpa [List.isEmpty_iff] using parseSources_ne_nil v
    simp only [if_false, ite_false, hie, Bool.false_eq_true] at hms
    rw [udp_open_read_mcast flags opts hostname port os false (parseSources v) _
      hread hhost hres hmc hsock hreuse hbl httl hco hinc hsrcs hms]
    refine ⟨⟨_, rfl⟩, ?_⟩
    simp [memEvs_append, memEvs, Ev.isMembership,
      apply_ite (List.filter Ev.isMembership), memEvs_block_map, ite_self]

/-- C1 witness: a concrete include session joins exactly its one listed
source, and a concrete block session joins plainly then blocks its two
listed sources. -/
theorem c1_source_filter_calls_witness :
    memEvs (udp_open ⟨true, false⟩ { sources := some "10.0.0.5" }
        "239.1.1.1" 5004 osAllOk).2 =
      [Ev.joinSourceGroup "10.0.0.5" true] ∧
    memEvs (udp_open ⟨true, false⟩ { block := some "10.0.0.7,10.0.0.8" }
        "239.1.1.1" 5004 osAllOk).2 =
      [Ev.joinGroup true, Ev.blockSource "10.0.0.7" true,
       Ev.blockSource "10.0.0.8" true] := by
  constructor
  · have h := (c1_source_filter_calls ⟨true, false⟩ { sources := some "10.0.0.5" }
      "239.1.1.1" 5004 osAllOk rfl (by decide) rfl rfl rfl rfl rfl rfl rfl rfl
      (fun _ => rfl) (fun _ => rfl)).1 "10.0.0.5" rfl
    rw [h.2]
    decide
  · have h := (c1_source_filter_calls ⟨true, false⟩ { block := some "10.0.0.7,10.0.0.8" }
      "239.1.1.1" 5004 osAllOk rfl (by decide) rfl rfl rfl rfl rfl rfl rfl rfl
      (fun _ => rfl) (fun _ => rfl)).2 "10.0.0.7,10.0.0.8" rfl rfl
    rw [h.2]
    decide

end Udp

namespace Udp

/-- C10: the comma-separated host list of `sources=` or `block=` is
capped at 32 entries — with more than 32 hosts the open still succeeds
and exactly the first 32 hosts of the split receive a source-join call
(include mode) or a block call after the plain join (exclude mode); the
remaining hosts get none. -/
theorem c10_source_cap (flags : Flags) (opts : UDPOptions) (hostname : String)
    (port : Int) (os : OS)
    (hread : flags.read = true)
    (hhost : hostnameBlank hostname = false)
    (hres : os.resolveDestOk = true)
    (hmc : os.destIsMulticast = true)
    (hsock : os.socketOk = true)
    (hreuse : os.setReuseOk = true)
    (hbl : os.bindLocalOk = true)
    (httl : os.setTTLOk = true)
    (hjoin : os.joinOk = true)
    (hco : os.connectOk = true)
    (hsres : ∀ x, os.sourceResolveOk x = true)
    (hscall : ∀ x, os.sourceSetsockoptOk x = true) :
    (∀ v, opts.sources = some v → 32 < (v.data.splitOn ',').length →
        (∃ s, (udp_open flags opts hostname port os).1 = .ok s) ∧
        memEvs (udp_open flags opts hostname port os).2 =
          (((v.data.splitOn ',').map fun cs => String.mk cs).take 32).map
            (fun x => Ev.joinSourceGroup x true) ∧
        (memEvs (udp_open flags opts hostname port os).2).length = 32) ∧
    (∀ v, opts.sources = none → opts.block = some v →
        32 < (v.data.splitOn ',').length →
        (∃ s, (udp_open flags opts hostname port os).1 = .ok s) ∧
        memEvs (udp_open flags opts hostname port os).2 =
          Ev.joinGroup true ::
            ((((v.data.splitOn ',').map fun cs => String.mk cs).take 32).map
              (fun x => Ev.blockSource x true)) ∧
        (memEvs (udp_open flags opts hostname port os).2).length = 33) := by
  constructor
  · intro v hv hlong
    have hinc : (parseOpts (!flags.read) opts).includeMode = true := by
      simp [parseOpts, hv]
    have hsrcs : (parseOpts (!flags.read) opts).srcs = parseSources v := by
      simp [parseOpts, hv]
    have hms := udp_mcast_input_setup_ok os true (parseSources v) hjoin
      (fun x _ => hsres x) (fun x _ => hscall x) (fun _ => parseSources_ne_nil v)
    simp only [if_true, ite_true] at hms
    have hmem : memEvs (udp_open flags opts hostname port os).2 =
        (((v.data.splitOn ',').map fun cs => String.mk cs).take 32).map
          (fun x => Ev.joinSourceGroup x true) := by
      rw [udp_open_read_mcast flags opts hostname port os true (parseSources v) _
        hread hhost hres hmc hsock hreuse hbl httl hco hinc hsrcs hms]
      simp [memEvs_append, memEvs, Ev.isMembership,
        apply_ite (List.filter Ev.isMembership), memEvs_join_map, ite_self,
        parseSources]
      intro a ha
      rcases List.mem_map.1 (List.mem_of_mem_take ha) with ⟨x, hx, rfl⟩
      rfl
    refine ⟨?_, hmem, ?_⟩
    · rw [udp_open_read_mcast flags opts hostname port os true (parseSources v) _
        hread hhost hres hmc hsock hreuse hbl httl hco hinc hsrcs hms]
      exact ⟨_, rfl⟩
    · rw [hmem]
      simp [List.length_map, List.length_take, Nat.min_eq_left (Nat.le_of_lt hlong)]
  · intro v hv hb hlong
    have hinc : (parseOpts (!flags.read) opts).includeMode = false := by
      simp [parseOpts, hv]
    have hsrcs : (parseOpts (!flags.read) opts).srcs = parseSources v := by
      simp [parseOpts, hv, hb]
    have hms := udp_mcast_input_setup_ok os false (parseSources v) hjoin
      (fun x _ => hsres x) (fun x _ => hscall x)
      (by intro h; exact absurd h (by decide))
    have hie : (parseSources v).isEmpty = false := by
      simpa [List.isEmpty_iff] using parseSources_ne_nil v
    simp only [if_false, ite_false, hie, Bool.false_eq_true] at hms
    have hmem : memEvs (udp_open flags opts hostname port os).2 =
        Ev.joinGroup true ::
          ((((v.data.splitOn ',').map fun cs => String.mk cs).take 32).map
            (fun x => Ev.blockSource x true)) := by
      rw [udp_open_read_mcast flags opts hostname port os false (parseSources v) _
        hread hhost hres hmc hsock hreuse hbl httl hco hinc hsrcs hms]
      simp [memEvs_append, memEvs, Ev.isMembership,
        apply_ite (List.filter Ev.isMembership), memEvs_block_map, ite_self,
        parseSources]
      intro a ha
      rcases List.mem_map.1 (List.mem_of_mem_take ha) with ⟨x, hx, rfl⟩
      rfl
    refine ⟨?_, hmem, ?_⟩
    · rw [udp_open_read_mcast flags opts hostname port os false (parseSources v) _
        hread hhost hres hmc hsock hreuse hbl httl hco hinc hsrcs hms]
      exact ⟨_, rfl⟩
    · rw [hmem]
      simp [List.length_map, List.length_take, Nat.min_eq_left (Nat.le_of_lt hlong)]

/-- C10 witness: 33 one-character hosts in `sources=` yield exactly 32
source-joins with the open succeeding; the same 33 hosts in `block=`
yield the plain join plus exactly 32 block calls (33 membership calls). -/
theorem c10_source_cap_witness :
    32 < ((String.intercalate "," (List.replicate 33 "a")).data.splitOn ',').length ∧
    (memEvs (udp_open ⟨true, false⟩
        { sources := some (String.intercalate "," (List.replicate 33 "a")) }
        "239.1.1.1" 5004 osAllOk).2).length = 32 ∧
    (memEvs (udp_open ⟨true, false⟩
        { block := some (String.intercalate "," (List.replicate 33 "a")) }
        "239.1.1.1" 5004 osAllOk).2).length = 33 := by
  refine ⟨by decide, ?_, ?_⟩
  · exact ((c10_source_cap ⟨true, false⟩
      { sources := some (String.intercalate "," (List.replicate 33 "a")) }
      "239.1.1.1" 5004 osAllOk
      rfl (by decide) rfl rfl rfl rfl rfl rfl rfl rfl
      (fun _ => rfl) (fun _ => rfl)).1 (String.intercalate "," (List.replicate 33 "a"))
      rfl (by decide)).2.2
  · exact ((c10_source_cap ⟨true, false⟩
      { block := some (String.intercalate "," (List.replicate 33 "a")) }
      "239.1.1.1" 5004 osAllOk
      rfl (by decide) rfl rfl rfl rfl rfl rfl rfl rfl
      (fun _ => rfl) (fun _ => rfl)).2 (String.intercalate "," (List.replicate 33 "a"))
      rfl rfl (by decide)).2.2

/-- C9: on a read session, a multicast destination — or an absent or zero
`localport` — makes `udp_open` hand the URL's destination port to the
local-address resolution before binding (first trace event), while a
nonzero `localport` on a non-multicast read session is used as given; in
particular an explicit `localport` on a multicast read session is ignored
in favor of the destination port. -/
theorem c9_local_port_replacement (flags : Flags) (opts : UDPOptions) (hostname : String)
    (port : Int) (os : OS)
    (hread : flags.read = true)
    (hhost : hostnameBlank hostname = false)
    (hres : os.resolveDestOk = true)
    (hsock : os.socketOk = true)
    (hreuse : os.setReuseOk = true)
    (hbl : os.bindLocalOk = true)
    (httl : os.setTTLOk = true)
    (hjoin : os.joinOk = true)
    (hco : os.connectOk = true)
    (hsnd : os.sndBufOk = true)
    (hsres : ∀ x, os.sourceResolveOk x = true)
    (hscall : ∀ x, os.sourceSetsockoptOk x = true) :
    (os.destIsMulticast = true →
        (udp_open flags opts hostname port os).2.head? =
          some (Ev.sockCreate port)) ∧
    (os.destIsMulticast = false →
        (opts.localport = none ∨ ∃ w, opts.localport = some w ∧ strtolZ w = 0) →
        (udp_open flags opts hostname port os).2.head? =
          some (Ev.sockCreate port)) ∧
    (os.destIsMulticast = false →
        ∀ w, opts.localport = some w → strtolZ w ≠ 0 →
        (udp_open flags opts hostname port os).2.head? =
          some (Ev.sockCreate (strtolZ w))) := by
  refine ⟨?_, ?_, ?_⟩
  · intro hmc
    have hms := udp_mcast_input_setup_ok os
      (parseOpts (!flags.read) opts).includeMode
      (parseOpts (!flags.read) opts).srcs hjoin
      (fun x _ => hsres x) (fun x _ => hscall x) (parsed_srcs_ne_nil flags opts)
    rw [udp_open_read_mcast flags opts hostname port os _ _ _
      hread hhost hres hmc hsock hreuse hbl httl hco rfl rfl hms]
    simp
  · intro hmc hlp
    rw [udp_open_nonmcast flags opts hostname port os
      hhost hres hmc hsock hreuse hbl hsnd hco]
    have hlp0 : (parseOpts false opts).localPort = 0 := by
      rcases hlp with h | ⟨w, hw, hw0⟩ <;> simp [parseOpts, *]
    simp [hread, hlp0]
  · intro hmc w hw hw0
    rw [udp_open_nonmcast flags opts hostname port os
      hhost hres hmc hsock hreuse hbl hsnd hco]
    have hlpw : (parseOpts false opts).localPort = strtolZ w := by
      simp [parseOpts, hw]
    simp [hread, hlpw, hw0]

/-- C9 witness: a multicast read session with an explicit `localport=9999`
still resolves its local address with destination port 5004, and a unicast
read session without `localport` also uses 5004. -/
theorem c9_local_port_replacement_witness :
    (udp_open ⟨true, false⟩ { localport := some "9999" }
        "239.1.1.1" 5004 osAllOk).2.head? = some (Ev.sockCreate 5004) ∧
    (udp_open ⟨true, false⟩ {} "10.1.1.1" 5004
        { osAllOk with destIsMulticast := false }).2.head? =
      some (Ev.sockCreate 5004) := by
  constructor
  · exact (c9_local_port_replacement ⟨true, false⟩ { localport := some "9999" }
      "239.1.1.1" 5004 osAllOk rfl (by decide) rfl rfl rfl rfl rfl rfl rfl rfl
      (fun _ => rfl) (fun _ => rfl)).1 rfl
  · exact (c9_local_port_replacement ⟨true, false⟩ {} "10.1.1.1" 5004
      { osAllOk with destIsMulticast := false } rfl (by decide) rfl rfl rfl rfl
      rfl rfl rfl rfl (fun _ => rfl) (fun _ => rfl)).2.1 rfl (Or.inl rfl)

/-- C5 (amended): a multicast read session with no `sources=` include
filter joins the group exactly once at open, leaves it exactly once at
close, and the leave precedes the release of the socket handle. -/
theorem c5_join_leave_once (flags : Flags) (opts : UDPOptions) (hostname : String)
    (port : Int) (os : OS)
    (hread : flags.read = true)
    (hhost : hostnameBlank hostname = false)
    (hres : os.resolveDestOk = true)
    (hmc : os.destIsMulticast = true)
    (hsock : os.socketOk = true)
    (hreuse : os.setReuseOk = true)
    (hbl : os.bindLocalOk = true)
    (httl : os.setTTLOk = true)
    (hjoin : os.joinOk = true)
    (hco : os.connectOk = true)
    (hsres : ∀ x, os.sourceResolveOk x = true)
    (hscall : ∀ x, os.sourceSetsockoptOk x = true)
    (hns : opts.sources = none) :
    ∃ ctx, (udp_open flags opts hostname port os).1 = .ok ctx ∧
      countJoins (udp_open flags opts hostname port os).2 = 1 ∧
      countLeaves (udp_open flags opts hostname port os).2 = 0 ∧
      ctx.is_multicast = true ∧
      udp_close flags ctx = [Ev.leaveGroup, Ev.closeSocket] ∧
      countLeaves (udp_close flags ctx) = 1 := by
  have hinc : (parseOpts (!flags.read) opts).includeMode = false := by
    simp [parseOpts, hns]
  rcases hb : opts.block with _ | bv
  · have hsrcs : (parseOpts (!flags.read) opts).srcs = [] := by
      simp [parseOpts, hns, hb]
    have hms := udp_mcast_input_setup_ok os false [] hjoin
      (by intro x hx; simp at hx) (by intro x hx; simp at hx) (by simp)
    simp only [if_false, ite_false, List.isEmpty_nil, if_true, ite_true,
      Bool.false_eq_true] at hms
    have hmem : memEvs (udp_open flags opts hostname port os).2 =
        [Ev.joinGroup true] := by
      rw [udp_open_read_mcast flags opts hostname port os false [] _
        hread hhost hres hmc hsock hreuse hbl httl hco hinc hsrcs hms]
      simp [memEvs_append, memEvs, Ev.isMembership,
        apply_ite (List.filter Ev.isMembership), ite_self]
    rw [udp_open_read_mcast flags opts hostname port os false [] _
      hread hhost hres hmc hsock hreuse hbl httl hco hinc hsrcs hms] at hmem ⊢
    refine ⟨_, rfl, ?_, ?_, rfl, ?_, ?_⟩
    · rw [← countJoins_memEvs, hmem]; rfl
    · rw [← countLeaves_memEvs, hmem]; rfl
    · simp [udp_close, hread]
    · simp [udp_close, hread, countLeaves, List.countP_cons]
  · have hsrcs : (parseOpts (!flags.read) opts).srcs = parseSources bv := by
      simp [parseOpts, hns, hb]
    have hms := udp_mcast_input_setup_ok os false (parseSources bv) hjoin
      (fun x _ => hsres x) (fun x _ => hscall x) (by simp)
    have hie : (parseSources bv).isEmpty = false := by
      simpa [List.isEmpty_iff] using parseSources_ne_nil bv
    simp only [if_false, ite_false, hie, Bool.false_eq_true] at hms
    have hmem : memEvs (udp_open flags opts hostname port os).2 =
        Ev.joinGroup true :: ((parseSources bv).map fun x => Ev.blockSource x true) := by
      rw [udp_open_read_mcast flags opts hostname port os false (parseSources bv) _
        hread hhost hres hmc hsock hreuse hbl httl hco hinc hsrcs hms]
      simp [memEvs_append, memEvs, Ev.isMembership,
        apply_ite (List.filter Ev.isMembership), memEvs_block_map, ite_self]
    rw [udp_open_read_mcast flags opts hostname port os false (parseSources bv) _
      hread hhost hres hmc hsock hreuse hbl httl hco hinc hsrcs hms] at hmem ⊢
    refine ⟨_, rfl, ?_, ?_, rfl, ?_, ?_⟩
    · rw [← countJoins_memEvs, hmem]
      simp [countJoins, List.countP_cons]
    · rw [← countLeaves_memEvs, hmem]
      simp [countLeaves, List.countP_cons]
    · simp [udp_close, hread]
    · simp [udp_close, hread, countLeaves, List.countP_cons]

/-- C5 witness: a plain multicast read session joins once at open and its
close leaves once, before the socket is released. -/
theorem c5_join_leave_once_witness :
    countJoins (udp_open ⟨true, false⟩ {} "239.1.1.1" 5004 osAllOk).2 = 1 := by
  rcases c5_join_leave_once ⟨true, false⟩ {} "239.1.1.1" 5004 osAllOk rfl
    (by decide) rfl rfl rfl rfl rfl rfl rfl rfl
    (fun _ => rfl) (fun _ => rfl) rfl with ⟨ctx, _, hj, _⟩
  exact hj

/-- C5 counterexample: an include-mode SSM read session (`sources=` with
one host) performs no plain any-source join at open, yet its close still
issues one leave — the join count is 0, not 1. -/
theorem c5_counterexample :
    (∃ ctx, (udp_open ⟨true, false⟩ { sources := some "10.0.0.5" }
        "239.1.1.2" 5004 osAllOk).1 = .ok ctx ∧ ctx.is_multicast = true ∧
      countLeaves (udp_close ⟨true, false⟩ ctx) = 1) ∧
    countJoins (udp_open ⟨true, false⟩ { sources := some "10.0.0.5" }
        "239.1.1.2" 5004 osAllOk).2 = 0 := by
  constructor
  · exact ⟨⟨16, 65536, true, 5004, 1, 0, true, 0⟩, rfl, rfl, rfl⟩
  · decide

end Udp

namespace Udp

/-- C2 (evaluating the code at the spec's failing configuration): with
include mode and an empty source list the membership setup takes the
`num_sources == 0` branch, performs the plain any-source join and
succeeds; moreover no input whatsoever reaches the
`invalidSourceFilter` ("invalid udp settings") branch of udp.c:520-522 —
it is dead code. -/
theorem c2_include_empty_sources_plain_join :
    udp_mcast_input_setup osAllOk true [] = (.ok (), [Ev.joinGroup true]) ∧
    ∀ (os : OS) (inc : Bool) (srcs : List String),
      (udp_mcast_input_setup os inc srcs).1 ≠ .error .invalidSourceFilter := by
  refine ⟨rfl, ?_⟩
  intro os inc srcs
  unfold udp_mcast_input_setup
  split
  · split
    · split
      · exact udp_set_multicast_sources_ne_invalid os false srcs
      · simp
    · simp
  · split
    · exact udp_set_multicast_sources_ne_invalid os true srcs
    · rename_i h1 h2
      simp at h1 h2
      exact absurd (h2 h1.2) h1.1

/-- C7: whenever a resolved non-multicast open succeeds with every OS call
working, `getLocalPort` reports exactly the port obtained from the
post-bind `getsockname` query, nonzero when the OS reports a nonzero
bound port — regardless of any `localport` option. -/
theorem c7_local_port_from_getsockname (flags : Flags) (opts : UDPOptions)
    (hostname : String) (port : Int) (os : OS)
    (hhost : hostnameBlank hostname = false)
    (hres : os.resolveDestOk = true)
    (hmc : os.destIsMulticast = false)
    (hsock : os.socketOk = true)
    (hreuse : os.setReuseOk = true)
    (hbl : os.bindLocalOk = true)
    (hsnd : os.sndBufOk = true)
    (hco : os.connectOk = true)
    (hbp : os.boundPort ≠ 0) :
    ∃ ctx, (udp_open flags opts hostname port os).1 = .ok ctx ∧
      ff_udp_get_local_port ctx = os.boundPort ∧
      ff_udp_get_local_port ctx ≠ 0 := by
  rw [udp_open_nonmcast flags opts hostname port os
    hhost hres hmc hsock hreuse hbl hsnd hco]
  exact ⟨_, rfl, rfl, hbp⟩

/-- C7 witness: a unicast read open without `localport` reports the
OS-queried bound port 5004. -/
theorem c7_local_port_from_getsockname_witness :
    ∃ ctx, (udp_open ⟨true, false⟩ {} "10.1.1.1" 5004
        { osAllOk with destIsMulticast := false }).1 = .ok ctx ∧
      ff_udp_get_local_port ctx = 5004 ∧
      ff_udp_get_local_port ctx ≠ 0 :=
  c7_local_port_from_getsockname ⟨true, false⟩ {} "10.1.1.1" 5004
    { osAllOk with destIsMulticast := false }
    (by decide) rfl rfl rfl rfl rfl rfl rfl (by decide)

/-- C8: a connect request through the set-remote operation is a no-op
when the session is already connected (no OS connect call is emitted and
the call succeeds), and when the OS connect fails the call returns an
error and leaves the session unconnected. -/
theorem c8_set_remote_connect (os : OS) (v : String) (s : UDPCtx)
    (hres : os.resolveDestOk = true) :
    (s.is_connected ≠ 0 →
        (ff_udp_set_remote_url os (some v) s).1 = .ok () ∧
        (ff_udp_set_remote_url os (some v) s).2.2 = []) ∧
    (s.is_connected = 0 → strtolZ v ≠ 0 → os.connectOk = false →
        (ff_udp_set_remote_url os (some v) s).1 = .error .connectFailed ∧
        (ff_udp_set_remote_url os (some v) s).2.1.is_connected = 0 ∧
        (ff_udp_set_remote_url os (some v) s).2.2 = [Ev.connectOS false]) := by
  constructor
  · intro hc
    simp [ff_udp_set_remote_url, hres, hc]
  · intro hc0 hv hco
    simp [ff_udp_set_remote_url, hres, hc0, hv, hco]

/-- C8 witness: with `connect=1`, an already-connected session is left
untouched, and a failing OS connect on an unconnected session yields an
error with the session still unconnected. -/
theorem c8_set_remote_connect_witness :
    ((ff_udp_set_remote_url osAllOk (some "1")
        { is_connected := 1 }).1 = .ok () ∧
      (ff_udp_set_remote_url osAllOk (some "1") { is_connected := 1 }).2.2 = []) ∧
    ((ff_udp_set_remote_url { osAllOk with connectOk := false } (some "1")
        {}).1 = .error .connectFailed ∧
      (ff_udp_set_remote_url { osAllOk with connectOk := false } (some "1")
        {}).2.1.is_connected = 0 ∧
      (ff_udp_set_remote_url { osAllOk with connectOk := false } (some "1")
        {}).2.2 = [Ev.connectOS false]) :=
  ⟨(c8_set_remote_connect osAllOk "1" { is_connected := 1 } rfl).1 (by decide),
   (c8_set_remote_connect { osAllOk with connectOk := false } "1" {} rfl).2
     rfl (by decide) rfl⟩

end Udp

namespace Udp

/-- Complete characterization of `udp_open` for a write-only (output)
multicast session when every OS call succeeds. -/
theorem udp_open_mcast_output (flags : Flags) (opts : UDPOptions) (hostname : String)
    (port : Int) (os : OS)
    (hread : flags.read = false)
    (hw : flags.write = true)
    (hhost : hostnameBlank hostname = false)
    (hres : os.resolveDestOk = true)
    (hmc : os.destIsMulticast = true)
    (hsock : os.socketOk = true)
    (hreuse : os.setReuseOk = true)
    (hbl : os.bindLocalOk = true)
    (httl : os.setTTLOk = true)
    (hsnd : os.sndBufOk = true)
    (hco : os.connectOk = true) :
    udp_open flags opts hostname port os =
      (.ok { ttl := (parseOpts (!flags.read) opts).ttl
             buffer_size := (parseOpts (!flags.read) opts).bufferSize
             is_multicast := true
             local_port := os.boundPort
             reuse_socket :=
               if ((parseOpts (!flags.read) opts).reuseVal != 0 ||
                   !(parseOpts (!flags.read) opts).reuseSpecified) = true then 1
               else (parseOpts (!flags.read) opts).reuseVal
             is_connected := (parseOpts (!flags.read) opts).connectVal
             dest_set := true
             udp_fd := 0 },
       [Ev.sockCreate (parseOpts (!flags.read) opts).localPort]
         ++ (if ((parseOpts (!flags.read) opts).reuseVal != 0 ||
                 !(parseOpts (!flags.read) opts).reuseSpecified) = true
             then [Ev.setReuse true] else [])
         ++ [Ev.bindLocal true]
         ++ [Ev.getSockName os.boundPort]
         ++ [Ev.setTTL true]
         ++ [Ev.setSndBuf true]
         ++ (if (parseOpts (!flags.read) opts).connectVal == 0 then []
             else [Ev.connectOS true])) := by
  rcases hc : opts.connect with _ | cv
  · rcases hr : opts.reuse with _ | rv
    · simp [udp_open, openRemotePhase, openSocketPhase, openReusePhase,
        openBindPhase, openPortPhase, openMulticastPhase, openBufferPhase,
        openConnectPhase, openFinishPhase, parseOpts,
        ff_udp_set_remote_url, seqStep, int_bne_beq_zero,
        hread, hw, hhost, hres, hmc, hsock, hreuse, hbl, httl, hsnd, hco, hc, hr]
    · by_cases hrv : reuseParse rv = 0 <;>
      simp [udp_open, openRemotePhase, openSocketPhase, openReusePhase,
        openBindPhase, openPortPhase, openMulticastPhase, openBufferPhase,
        openConnectPhase, openFinishPhase, parseOpts,
        ff_udp_set_remote_url, seqStep, int_bne_beq_zero,
        hread, hw, hhost, hres, hmc, hsock, hreuse, hbl, httl, hsnd, hco,
        hc, hr, hrv]
  · by_cases hic : strtolZ cv = 0 <;>
    rcases hr : opts.reuse with _ | rv
    case pos.none | neg.none =>
      simp [udp_open, openRemotePhase, openSocketPhase, openReusePhase,
        openBindPhase, openPortPhase, openMulticastPhase, openBufferPhase,
        openConnectPhase, openFinishPhase, parseOpts,
        ff_udp_set_remote_url, seqStep, int_bne_beq_zero,
        hread, hw, hhost, hres, hmc, hsock, hreuse, hbl, httl, hsnd, hco,
        hc, hr, hic]
    case pos.some | neg.some =>
      by_cases hrv : reuseParse rv = 0 <;>
      simp [udp_open, openRemotePhase, openSocketPhase, openReusePhase,
        openBindPhase, openPortPhase, openMulticastPhase, openBufferPhase,
        openConnectPhase, openFinishPhase, parseOpts,
        ff_udp_set_remote_url, seqStep, int_bne_beq_zero,
        hread, hw, hhost, hres, hmc, hsock, hreuse, hbl, httl, hsnd, hco,
        hc, hr, hic, hrv]

theorem isBind_eq_false_of_isMembership {e : Ev} (h : e.isMembership = true) :
    e.isBind = false := by
  cases e <;> simp [Ev.isMembership, Ev.isBind] at h ⊢

end Udp

namespace Udp

/-- C3: for a multicast destination opened read-only, open tries binding
the multicast destination address first and skips the local bind when
that works; if the destination bind fails — or write access was
requested, in which case it is never attempted — open binds the locally
resolved address instead; only when that fallback bind also fails does
open fail, with the bind error. -/
theorem c3_bind_policy (flags : Flags) (opts : UDPOptions) (hostname : String)
    (port : Int) (os : OS)
    (hread : flags.read = true)
    (hhost : hostnameBlank hostname = false)
    (hres : os.resolveDestOk = true)
    (hmc : os.destIsMulticast = true)
    (hsock : os.socketOk = true)
    (hreuse : os.setReuseOk = true)
    (httl : os.setTTLOk = true)
    (hjoin : os.joinOk = true)
    (hco : os.connectOk = true)
    (hsres : ∀ x, os.sourceResolveOk x = true)
    (hscall : ∀ x, os.sourceSetsockoptOk x = true) :
    (flags.write = false → os.bindDestOk = true → os.bindLocalOk = true →
        bindEvs (udp_open flags opts hostname port os).2 = [Ev.bindDest true]) ∧
    (flags.write = false → os.bindDestOk = false → os.bindLocalOk = true →
        bindEvs (udp_open flags opts hostname port os).2 =
          [Ev.bindDest false, Ev.bindLocal true] ∧
        ∃ s, (udp_open flags opts hostname port os).1 = .ok s) ∧
    (flags.write = true → os.bindLocalOk = true →
        bindEvs (udp_open flags opts hostname port os).2 = [Ev.bindLocal true]) ∧
    (os.bindLocalOk = true →
        (udp_open flags opts hostname port os).1 ≠ .error .bindError) ∧
    (flags.write = false → os.bindDestOk = false → os.bindLocalOk = false →
        (udp_open flags opts hostname port os).1 = .error .bindError ∧
        bindEvs (udp_open flags opts hostname port os).2 =
          [Ev.bindDest false, Ev.bindLocal false]) := by
  have hms := udp_mcast_input_setup_ok os
    (parseOpts (!flags.read) opts).includeMode
    (parseOpts (!flags.read) opts).srcs hjoin
    (fun x _ => hsres x) (fun x _ => hscall x) (parsed_srcs_ne_nil flags opts)
  have hmtr : bindEvs (udp_mcast_input_setup os
      (parseOpts (!flags.read) opts).includeMode
      (parseOpts (!flags.read) opts).srcs).2 = [] :=
    List.filter_eq_nil_iff.mpr (fun e he => by
      simp [isBind_eq_false_of_isMembership
        (udp_mcast_input_setup_mem os _ _ e he)])
  refine ⟨?_, ?_, ?_, ?_, ?_⟩
  · intro hw hbd hbl
    rw [udp_open_read_mcast flags opts hostname port os _ _ _
      hread hhost hres hmc hsock hreuse hbl httl hco rfl rfl hms]
    rw [hms] at hmtr
    simp [bindEvs, memEvs, Ev.isBind, List.filter_append,
      apply_ite (List.filter Ev.isBind), ite_self, hw, hbd] at hmtr ⊢
    exact hmtr
  · intro hw hbd hbl
    rw [udp_open_read_mcast flags opts hostname port os _ _ _
      hread hhost hres hmc hsock hreuse hbl httl hco rfl rfl hms]
    rw [hms] at hmtr
    constructor
    · simp [bindEvs, Ev.isBind, List.filter_append,
        apply_ite (List.filter Ev.isBind), ite_self, hw, hbd] at hmtr ⊢
      exact hmtr
    · exact ⟨_, rfl⟩
  · intro hw hbl
    rw [udp_open_read_mcast flags opts hostname port os _ _ _
      hread hhost hres hmc hsock hreuse hbl httl hco rfl rfl hms]
    rw [hms] at hmtr
    simp [bindEvs, Ev.isBind, List.filter_append,
      apply_ite (List.filter Ev.isBind), ite_self, hw] at hmtr ⊢
    exact hmtr
  · intro hbl
    rw [udp_open_read_mcast flags opts hostname port os _ _ _
      hread hhost hres hmc hsock hreuse hbl httl hco rfl rfl hms]
    simp
  · intro hw hbd hbl
    rcases hc : opts.connect with _ | cv
    · rcases hr : opts.reuse with _ | rv
      · simp [udp_open, openRemotePhase, openSocketPhase, openReusePhase,
          openBindPhase, openPortPhase, openMulticastPhase, openBufferPhase,
          openConnectPhase, openFinishPhase, parseOpts, bindEvs, Ev.isBind,
          ff_udp_set_remote_url, seqStep, int_bne_beq_zero,
          hread, hw, hhost, hres, hmc, hsock, hreuse, hbd, hbl, hc, hr]
      · by_cases hrv : reuseParse rv = 0 <;>
        simp [udp_open, openRemotePhase, openSocketPhase, openReusePhase,
          openBindPhase, openPortPhase, openMulticastPhase, openBufferPhase,
          openConnectPhase, openFinishPhase, parseOpts, bindEvs, Ev.isBind,
          ff_udp_set_remote_url, seqStep, int_bne_beq_zero,
          hread, hw, hhost, hres, hmc, hsock, hreuse, hbd, hbl, hc, hr, hrv]
    · by_cases hic : strtolZ cv = 0 <;>
      rcases hr : opts.reuse with _ | rv
      case pos.none | neg.none =>
        simp [udp_open, openRemotePhase, openSocketPhase, openReusePhase,
          openBindPhase, openPortPhase, openMulticastPhase, openBufferPhase,
          openConnectPhase, openFinishPhase, parseOpts, bindEvs, Ev.isBind,
          ff_udp_set_remote_url, seqStep, int_bne_beq_zero,
          hread, hw, hhost, hres, hmc, hsock, hreuse, hbd, hbl, hc, hr, hic]
      case pos.some | neg.some =>
        by_cases hrv : reuseParse rv = 0 <;>
        simp [udp_open, openRemotePhase, openSocketPhase, openReusePhase,
          openBindPhase, openPortPhase, openMulticastPhase, openBufferPhase,
          openConnectPhase, openFinishPhase, parseOpts, bindEvs, Ev.isBind,
          ff_udp_set_remote_url, seqStep, int_bne_beq_zero,
          hread, hw, hhost, hres, hmc, hsock, hreuse, hbd, hbl, hc, hr, hic, hrv]

/-- C3 witness: with the destination bind working the only bind call is
the destination bind; with it failing the fallback local bind follows;
with both failing the open fails with the bind error. -/
theorem c3_bind_policy_witness :
    bindEvs (udp_open ⟨true, false⟩ {} "239.1.1.1" 5004 osAllOk).2 =
      [Ev.bindDest true] ∧
    bindEvs (udp_open ⟨true, false⟩ {} "239.1.1.1" 5004
        { osAllOk with bindDestOk := false }).2 =
      [Ev.bindDest false, Ev.bindLocal true] ∧
    (udp_open ⟨true, false⟩ {} "239.1.1.1" 5004
        { osAllOk with bindDestOk := false, bindLocalOk := false }).1 =
      .error .bindError := by
  refine ⟨?_, ?_, ?_⟩
  · exact (c3_bind_policy ⟨true, false⟩ {} "239.1.1.1" 5004 osAllOk rfl
      (by decide) rfl rfl rfl rfl rfl rfl rfl
      (fun _ => rfl) (fun _ => rfl)).1 rfl rfl rfl
  · exact ((c3_bind_policy ⟨true, false⟩ {} "239.1.1.1" 5004
      { osAllOk with bindDestOk := false } rfl
      (by decide) rfl rfl rfl rfl rfl rfl rfl
      (fun _ => rfl) (fun _ => rfl)).2.1 rfl rfl rfl).1
  · exact ((c3_bind_policy ⟨true, false⟩ {} "239.1.1.1" 5004
      { osAllOk with bindDestOk := false, bindLocalOk := false } rfl
      (by decide) rfl rfl rfl rfl rfl rfl rfl
      (fun _ => rfl) (fun _ => rfl)).2.2.2.2 rfl rfl rfl).1

end Udp


namespace Udp

/-- C6: during open, failure to set the send-buffer size on an output
session aborts the open with the send-buffer error and the live socket
handle is released on the way out, while failure to set the
receive-buffer size on an input session — multicast or not — leaves the
open successful with the failed call recorded (a warning). -/
theorem c6_buffer_error_policy (flags : Flags) (opts : UDPOptions) (hostname : String)
    (port : Int) (os : OS)
    (hhost : hostnameBlank hostname = false)
    (hres : os.resolveDestOk = true)
    (hsock : os.socketOk = true)
    (hreuse : os.setReuseOk = true)
    (hbl : os.bindLocalOk = true)
    (httl : os.setTTLOk = true) :
    (flags.read = false → flags.write = true → os.sndBufOk = false →
        (udp_open flags opts hostname port os).1 = .error .sndBufError ∧
        Ev.setSndBuf false ∈ (udp_open flags opts hostname port os).2 ∧
        Ev.closeSocket ∈ (udp_open flags opts hostname port os).2) ∧
    (flags.read = true → os.sndBufOk = true → os.rcvBufOk = false →
        os.connectOk = true → os.joinOk = true →
        (∀ x, os.sourceResolveOk x = true) →
        (∀ x, os.sourceSetsockoptOk x = true) →
        (∃ s, (udp_open flags opts hostname port os).1 = .ok s) ∧
        Ev.setRcvBuf false ∈ (udp_open flags opts hostname port os).2) := by
  constructor
  · intro hread hw hsnd
    cases hm : os.destIsMulticast <;>
    rcases hc : opts.connect with _ | cv <;>
    rcases hr : opts.reuse with _ | rv <;>
    first
      | (by_cases hrv : reuseParse rv = 0 <;>
         simp [udp_open, openRemotePhase, openSocketPhase, openReusePhase,
           openBindPhase, openPortPhase, openMulticastPhase, openBufferPhase,
           openConnectPhase, openFinishPhase, parseOpts,
           ff_udp_set_remote_url, seqStep, int_bne_beq_zero,
           hread, hw, hhost, hres, hsock, hreuse, hbl, httl,
           hm, hsnd, hc, hr, hrv])
      | simp [udp_open, openRemotePhase, openSocketPhase, openReusePhase,
          openBindPhase, openPortPhase, openMulticastPhase, openBufferPhase,
          openConnectPhase, openFinishPhase, parseOpts,
          ff_udp_set_remote_url, seqStep, int_bne_beq_zero,
          hread, hw, hhost, hres, hsock, hreuse, hbl, httl,
          hm, hsnd, hc, hr]
  · intro hread hsnd hrcv hco hjoin hsres hscall
    cases hm : os.destIsMulticast with
    | false =>
      rw [udp_open_nonmcast flags opts hostname port os
        hhost hres hm hsock hreuse hbl hsnd hco]
      refine ⟨⟨_, rfl⟩, ?_⟩
      simp [hread, hrcv]
    | true =>
      have hms := udp_mcast_input_setup_ok os
        (parseOpts (!flags.read) opts).includeMode
        (parseOpts (!flags.read) opts).srcs hjoin
        (fun x _ => hsres x) (fun x _ => hscall x) (parsed_srcs_ne_nil flags opts)
      rw [udp_open_read_mcast flags opts hostname port os _ _ _
        hread hhost hres hm hsock hreuse hbl httl hco rfl rfl hms]
      refine ⟨⟨_, rfl⟩, ?_⟩
      simp [hrcv]

/-- C6 witness: a write session whose SO_SNDBUF call fails errors out of
open and releases the socket, while unicast and multicast read sessions
whose SO_RCVBUF call fails open fine and only record the failed call. -/
theorem c6_buffer_error_policy_witness :
    ((udp_open ⟨false, true⟩ {} "10.1.1.1" 5004
        { osAllOk with destIsMulticast := false, sndBufOk := false }).1 =
      .error .sndBufError ∧
      Ev.closeSocket ∈ (udp_open ⟨false, true⟩ {} "10.1.1.1" 5004
        { osAllOk with destIsMulticast := false, sndBufOk := false }).2) ∧
    ((∃ s, (udp_open ⟨true, false⟩ {} "10.1.1.1" 5004
        { osAllOk with destIsMulticast := false, rcvBufOk := false }).1 = .ok s) ∧
      Ev.setRcvBuf false ∈ (udp_open ⟨true, false⟩ {} "10.1.1.1" 5004
        { osAllOk with destIsMulticast := false, rcvBufOk := false }).2) ∧
    Ev.setRcvBuf false ∈ (udp_open ⟨true, false⟩ {} "239.1.1.1" 5004
        { osAllOk with rcvBufOk := false }).2 := by
  refine ⟨⟨?_, ?_⟩, ⟨?_, ?_⟩, ?_⟩
  · exact ((c6_buffer_error_policy ⟨false, true⟩ {} "10.1.1.1" 5004
      { osAllOk with destIsMulticast := false, sndBufOk := false }
      (by decide) rfl rfl rfl rfl rfl).1 rfl rfl rfl).1
  · exact ((c6_buffer_error_policy ⟨false, true⟩ {} "10.1.1.1" 5004
      { osAllOk with destIsMulticast := false, sndBufOk := false }
      (by decide) rfl rfl rfl rfl rfl).1 rfl rfl rfl).2.2
  · exact ((c6_buffer_error_policy ⟨true, false⟩ {} "10.1.1.1" 5004
      { osAllOk with destIsMulticast := false, rcvBufOk := false }
      (by decide) rfl rfl rfl rfl rfl).2 rfl rfl rfl rfl rfl
      (fun _ => rfl) (fun _ => rfl)).1
  · exact ((c6_buffer_error_policy ⟨true, false⟩ {} "10.1.1.1" 5004
      { osAllOk with destIsMulticast := false, rcvBufOk := false }
      (by decide) rfl rfl rfl rfl rfl).2 rfl rfl rfl rfl rfl
      (fun _ => rfl) (fun _ => rfl)).2
  · exact ((c6_buffer_error_policy ⟨true, false⟩ {} "239.1.1.1" 5004
      { osAllOk with rcvBufOk := false }
      (by decide) rfl rfl rfl rfl rfl).2 rfl rfl rfl rfl rfl
      (fun _ => rfl) (fun _ => rfl)).2

/-- C4: SO_REUSEADDR is applied to the socket if and only if the `reuse`
key parsed to a nonzero request — a valueless or unparseable `reuse`
counting as a request to enable — or the destination is multicast with no
`reuse` key present at all. -/
theorem c4_reuse_policy (flags : Flags) (opts : UDPOptions) (hostname : String)
    (port : Int) (os : OS)
    (hrw : flags.read = true ∨ flags.write = true)
    (hhost : hostnameBlank hostname = false)
    (hres : os.resolveDestOk = true)
    (hsock : os.socketOk = true)
    (hreuse : os.setReuseOk = true)
    (hbl : os.bindLocalOk = true)
    (httl : os.setTTLOk = true)
    (hjoin : os.joinOk = true)
    (hsnd : os.sndBufOk = true)
    (hco : os.connectOk = true)
    (hsres : ∀ x, os.sourceResolveOk x = true)
    (hscall : ∀ x, os.sourceSetsockoptOk x = true) :
    (Ev.setReuse true ∈ (udp_open flags opts hostname port os).2 ↔
      ((∃ v, opts.reuse = some v ∧ reuseParse v ≠ 0) ∨
       (os.destIsMulticast = true ∧ opts.reuse = none))) ∧
    (opts.reuse = some "" →
      Ev.setReuse true ∈ (udp_open flags opts hostname port os).2) := by
  have main : Ev.setReuse true ∈ (udp_open flags opts hostname port os).2 ↔
      ((∃ v, opts.reuse = some v ∧ reuseParse v ≠ 0) ∨
       (os.destIsMulticast = true ∧ opts.reuse = none)) := by
    cases hm : os.destIsMulticast with
    | false =>
      rw [udp_open_nonmcast flags opts hostname port os
        hhost hres hm hsock hreuse hbl hsnd hco]
      rcases hr : opts.reuse with _ | rv
      · simp [parseOpts, hr,
          apply_ite (fun l => Ev.setReuse true ∈ l), ite_self]
      · by_cases hrv : reuseParse rv = 0 <;>
        simp [parseOpts, hr, hrv,
          apply_ite (fun l => Ev.setReuse true ∈ l), ite_self]
    | true =>
      cases hfr : flags.read with
      | true =>
        have hms := udp_mcast_input_setup_ok os
          (parseOpts (!flags.read) opts).includeMode
          (parseOpts (!flags.read) opts).srcs hjoin
          (fun x _ => hsres x) (fun x _ => hscall x) (parsed_srcs_ne_nil flags opts)
        have hnr : Ev.setReuse true ∉ (udp_mcast_input_setup os
            (parseOpts (!flags.read) opts).includeMode
            (parseOpts (!flags.read) opts).srcs).2 := fun h => by
          simpa [Ev.isMembership] using udp_mcast_input_setup_mem os _ _ _ h
        rw [udp_open_read_mcast flags opts hostname port os _ _ _
          hfr hhost hres hm hsock hreuse hbl httl hco rfl rfl hms]
        rw [hms] at hnr
        rcases hr : opts.reuse with _ | rv
        · simp [parseOpts, hr, hnr,
            apply_ite (fun l => Ev.setReuse true ∈ l), ite_self]
        · by_cases hrv : reuseParse rv = 0 <;>
          simp [parseOpts, hr, hrv, hnr,
            apply_ite (fun l => Ev.setReuse true ∈ l), ite_self]
      | false =>
        have hw : flags.write = true := by
          rcases hrw with h | h
          · rw [hfr] at h; exact absurd h (by simp)
          · exact h
        rw [udp_open_mcast_output flags opts hostname port os
          hfr hw hhost hres hm hsock hreuse hbl httl hsnd hco]
        rcases hr : opts.reuse with _ | rv
        · simp [parseOpts, hr,
            apply_ite (fun l => Ev.setReuse true ∈ l), ite_self]
        · by_cases hrv : reuseParse rv = 0 <;>
          simp [parseOpts, hr, hrv,
            apply_ite (fun l => Ev.setReuse true ∈ l), ite_self]
  exact ⟨main, fun hr => main.mpr (Or.inl ⟨"", hr, by decide⟩)⟩

/-- C4 witness: `reuse=0` on a multicast session disables the setsockopt,
a bare `reuse` (empty value) on a unicast session enables it, and a
multicast session with no `reuse` key enables it by default. -/
theorem c4_reuse_policy_witness :
    (Ev.setReuse true ∉ (udp_open ⟨true, false⟩ { reuse := some "0" }
        "239.1.1.1" 5004 osAllOk).2) ∧
    (Ev.setReuse true ∈ (udp_open ⟨true, false⟩ { reuse := some "" }
        "10.1.1.1" 5004 { osAllOk with destIsMulticast := false }).2) ∧
    (Ev.setReuse true ∈ (udp_open ⟨true, false⟩ {}
        "239.1.1.1" 5004 osAllOk).2) := by
  refine ⟨?_, ?_, ?_⟩
  · intro h
    have := (c4_reuse_policy ⟨true, false⟩ { reuse := some "0" } "239.1.1.1" 5004
      osAllOk (Or.inl rfl) (by decide) rfl rfl rfl rfl rfl rfl rfl rfl
      (fun _ => rfl) (fun _ => rfl)).1.mp h
    simp at this
    exact this (by decide)
  · exact (c4_reuse_policy ⟨true, false⟩ { reuse := some "" } "10.1.1.1" 5004
      { osAllOk with destIsMulticast := false } (Or.inl rfl) (by decide)
      rfl rfl rfl rfl rfl rfl rfl rfl
      (fun _ => rfl) (fun _ => rfl)).2 rfl
  · exact (c4_reuse_policy ⟨true, false⟩ {} "239.1.1.1" 5004 osAllOk
      (Or.inl rfl) (by decide) rfl rfl rfl rfl rfl rfl rfl rfl
      (fun _ => rfl) (fun _ => rfl)).1.mpr (Or.inr ⟨rfl, rfl⟩)

end Udp
